import Mathlib

/-!
Verification of the ingestion endpoint `put_first_translation/lambda_function.py`
of the TranslationPortalAWS repository, via a shallow embedding in Lean.

The embedding models:
* `compute_checksum` — SHA-256 over the UTF-8 bytes of the Python `str()`
  rendering of the dict `{"text": ..., "id": ...}`;
* the `handler` function — checksum verification, duplicate detection,
  insert, status update, response construction, and the `finally` block
  releasing the connection — with the fallible external operations
  (connection, SELECT, INSERT, UPDATE) driven by an explicit oracle.
-/

namespace Lambda

/-! ### 32-bit arithmetic on `Nat` -/

/-- Truncate to a 32-bit word. -/
def w32 (x : Nat) : Nat := x % 4294967296

/-- Right rotation of a 32-bit word. -/
def rotr (n x : Nat) : Nat := w32 ((x >>> n) ||| (x <<< (32 - n)))

/-! ### SHA-256 (FIPS 180-4), as used by `hashlib.sha256` -/

/-- The 64 SHA-256 round constants (decimal spellings of the FIPS 180-4
table). -/
def K : List Nat :=
  [1116352408, 1899447441, 3049323471, 3921009573, 961987163,
   1508970993, 2453635748, 2870763221, 3624381080, 310598401,
   607225278, 1426881987, 1925078388, 2162078206, 2614888103,
   3248222580, 3835390401, 4022224774, 264347078, 604807628,
   770255983, 1249150122, 1555081692, 1996064986, 2554220882,
   2821834349, 2952996808, 3210313671, 3336571891, 3584528711,
   113926993, 338241895, 666307205, 773529912, 1294757372,
   1396182291, 1695183700, 1986661051, 2177026350, 2456956037,
   2730485921, 2820302411, 3259730800, 3345764771, 3516065817,
   3600352804, 4094571909, 275423344, 430227734, 506948616,
   659060556, 883997877, 958139571, 1322822218, 1537002063,
   1747873779, 1955562222, 2024104815, 2227730452, 2361852424,
   2428436474, 2756734187, 3204031479, 3329325298]

/-- The SHA-256 initial hash value (decimal spellings). -/
def H0 : List Nat :=
  [1779033703, 3144134277, 1013904242, 2773480762,
   1359893119, 2600822924, 528734635, 1541459225]

/-- List lookup with default `0`. -/
def nth (l : List Nat) (i : Nat) : Nat := l.getD i 0

def smallSig0 (x : Nat) : Nat := (rotr 7 x) ^^^ (rotr 18 x) ^^^ (x >>> 3)

def smallSig1 (x : Nat) : Nat := (rotr 17 x) ^^^ (rotr 19 x) ^^^ (x >>> 10)

def bigSig0 (x : Nat) : Nat := (rotr 2 x) ^^^ (rotr 13 x) ^^^ (rotr 22 x)

def bigSig1 (x : Nat) : Nat := (rotr 6 x) ^^^ (rotr 11 x) ^^^ (rotr 25 x)

def chF (x y z : Nat) : Nat := (x &&& y) ^^^ ((x ^^^ 4294967295) &&& z)

def majF (x y z : Nat) : Nat := (x &&& y) ^^^ (x &&& z) ^^^ (y &&& z)

/-- Pack a byte list into big-endian 32-bit words, four bytes per word. -/
def toWords : List Nat → List Nat
  | b0 :: b1 :: b2 :: b3 :: rest => (b0 * 16777216 + b1 * 65536 + b2 * 256 + b3) :: toWords rest
  | _ => []

/-- Extend the 16 message words to the 64-entry message schedule. -/
def schedule (w0 : List Nat) : List Nat :=
  (List.range 48).foldl
    (fun ws i =>
      ws ++ [w32 (smallSig1 (nth ws (i + 14)) + nth ws (i + 9) +
                  smallSig0 (nth ws (i + 1)) + nth ws i)])
    w0

/-- The eight SHA-256 working registers. -/
structure Regs where
  a : Nat
  b : Nat
  c : Nat
  d : Nat
  e : Nat
  f : Nat
  g : Nat
  h : Nat

/-- One SHA-256 compression round. -/
def roundStep (ws : List Nat) (r : Regs) (i : Nat) : Regs :=
  let t1 := w32 (r.h + bigSig1 r.e + chF r.e r.f r.g + nth K i + nth ws i)
  let t2 := w32 (bigSig0 r.a + majF r.a r.b r.c)
  ⟨w32 (t1 + t2), r.a, r.b, r.c, w32 (r.d + t1), r.e, r.f, r.g⟩

/-- Compress one 64-byte block into the running hash state. -/
def compress (hs : List Nat) (block : List Nat) : List Nat :=
  let ws := schedule (toWords block)
  let r0 : Regs := ⟨nth hs 0, nth hs 1, nth hs 2, nth hs 3, nth hs 4, nth hs 5, nth hs 6, nth hs 7⟩
  let r := (List.range 64).foldl (roundStep ws) r0
  [w32 (nth hs 0 + r.a), w32 (nth hs 1 + r.b), w32 (nth hs 2 + r.c), w32 (nth hs 3 + r.d),
   w32 (nth hs 4 + r.e), w32 (nth hs 5 + r.f), w32 (nth hs 6 + r.g), w32 (nth hs 7 + r.h)]

/-- Big-endian 8-byte rendering of a length-in-bits counter. -/
def be64 (n : Nat) : List Nat :=
  [(n >>> 56) % 256, (n >>> 48) % 256, (n >>> 40) % 256, (n >>> 32) % 256,
   (n >>> 24) % 256, (n >>> 16) % 256, (n >>> 8) % 256, n % 256]

/-- Big-endian 4-byte rendering of a 32-bit word. -/
def be32 (n : Nat) : List Nat :=
  [(n >>> 24) % 256, (n >>> 16) % 256, (n >>> 8) % 256, n % 256]

/-- SHA-256 message padding: `0x80`, zeros to 56 mod 64, then the bit length. -/
def padBytes (msg : List Nat) : List Nat :=
  msg ++ [128] ++ List.replicate ((119 - msg.length % 64) % 64) 0 ++ be64 (8 * msg.length)

/-- Split a byte list into 64-byte blocks (fuel-driven structural recursion). -/
def chunksFuel : Nat → List Nat → List (List Nat)
  | 0, _ => []
  | _ + 1, [] => []
  | fuel + 1, l => l.take 64 :: chunksFuel fuel (l.drop 64)

/-- Serialize the eight hash words into the 32-byte digest. -/
def wordsToBytes : List Nat → List Nat
  | [] => []
  | w :: ws => be32 w ++ wordsToBytes ws

/-- SHA-256 digest (as a list of 32 byte values) of a byte list. -/
def sha256Bytes (msg : List Nat) : List Nat :=
  wordsToBytes (((chunksFuel (padBytes msg).length (padBytes msg)).foldl compress) H0)

/-! ### Hex encoding (`bytes.hex()`) and UTF-8 (`str.encode("utf-8")`) -/

/-- Lowercase hex digit, as produced by Python's `bytes.hex()`. -/
def hexDigitChar (n : Nat) : Char :=
  if n < 10 then Char.ofNat (48 + n) else Char.ofNat (87 + n)

/-- The character list underlying `bytes.hex()`. -/
def bytesToHexChars (bs : List Nat) : List Char :=
  bs.flatMap (fun b => [hexDigitChar (b / 16), hexDigitChar (b % 16)])

/-- Python `bytes.hex()`: lowercase hex string of a byte list. -/
def bytesToHex (bs : List Nat) : String :=
  String.mk (bytesToHexChars bs)

/-- UTF-8 encoding of one character. -/
def utf8Char (c : Char) : List Nat :=
  let n := c.toNat
  if n < 128 then [n]
  else if n < 2048 then [192 + n / 64, 128 + n % 64]
  else if n < 65536 then [224 + n / 4096, 128 + (n / 64) % 64, 128 + n % 64]
  else [240 + n / 262144, 128 + (n / 4096) % 64, 128 + (n / 64) % 64, 128 + n % 64]

/-- UTF-8 encoding of a character list. -/
def utf8Bytes (l : List Char) : List Nat := l.flatMap utf8Char

/-- Python `s.encode("utf-8")` as a byte list. -/
def strUtf8 (s : String) : List Nat := utf8Bytes s.data

/-! ### Python value rendering used by the handler -/

/-- Python `str()` of a value that is either a string or `None`
(as it appears inside `str(dict)`: strings are shown with quotes).
Faithful for strings containing no quote or backslash characters. -/
def pyRepr : Option String → String
  | none => "None"
  | some s => "\x27" ++ s ++ "\x27"

/-- Python `str()` of a string-or-`None` value in an f-string position. -/
def pyStr : Option String → String
  | none => "None"
  | some s => s

/-- Python `str({"text": text, "id": id})`: insertion order is `text` first,
then `id`, exactly as `translated_data` is built in the handler. -/
def pyDictStr (text idv : Option String) : String :=
  "\x7b\x27text\x27: " ++ pyRepr text ++ ", \x27id\x27: " ++ pyRepr idv ++ "\x7d"

/-- `HTDatabase.compute_checksum(translated_data)`:
`hashlib.sha256(str(data).encode("utf-8")).digest()`. -/
def compute_checksum (text idv : Option String) : List Nat :=
  sha256Bytes (strUtf8 (pyDictStr text idv))

/-- `json.dumps` rendering of a string-or-`None` value. -/
def jsonStr : Option String → String
  | none => "null"
  | some s => "\"" ++ s ++ "\""

/-- Python truthiness of `body.get("title")`: `None` and `""` are falsy. -/
def titleTruthy : Option String → Bool
  | none => false
  | some s => !(s == "")

/-- `json.dumps(loaded)` where `loaded` holds `title` (if truthy) and `text`. -/
def jsonDumps (title text : Option String) : String :=
  if titleTruthy title then
    "\x7b\"title\": " ++ jsonStr title ++ ", \"text\": " ++ jsonStr text ++ "\x7d"
  else
    "\x7b\"text\": " ++ jsonStr text ++ "\x7d"

/-! ### Request, store, and failure-oracle model -/

/-- The parsed JSON request body; each `.get` field is `none` when absent.
`idv` stands for the Python key `"id"`. -/
structure Body where
  idv : Option String
  text : Option String
  title : Option String
  checksum : Option String
  providers_id : Option String
  lang_to : Option String
  lang_from : Option String
deriving DecidableEq

/-- The `event["body"]` value: absent key, unparseable JSON, or a parsed body. -/
inductive RawBody where
  | missing
  | invalid
  | valid (b : Body)
deriving DecidableEq

/-- The Lambda event: its `"body"` entry and its `"id"` entry
(`event.get("id")` is read in the insert-failure message). -/
structure Event where
  rawBody : RawBody
  idv : Option String
deriving DecidableEq

/-- Outcome oracle for the fallible external operations, with the traceback /
exception texts the runtime would produce for each. -/
structure Oracle where
  connectOk : Bool
  connectTrace : String
  selectOk : Bool
  selectTrace : String
  insertOk : Bool
  insertExcMsg : String
  updateOk : Bool
  updateTrace : String
deriving DecidableEq

/-- A row of `HighTimes.translations`; the `checksum` column holds raw bytes. -/
structure Row where
  text_id : Option String
  content : String
  providers_id : Option String
  lang_to : Option String
  lang_from : Option String
  checksum : List Nat
deriving DecidableEq

/-- The backing store: the `translations` table and the `HighTimes`
status table as `(id, status)` pairs. -/
structure DB where
  translations : List Row
  highTimes : List (String × String)
deriving DecidableEq

/-- SQL equality of a nullable column against a nullable binding:
`NULL` compares unequal to everything. -/
def sqlEqOpt : Option String → Option String → Bool
  | some a, some b => a == b
  | _, _ => false

/-- The duplicate-detection `SELECT COUNT(*) ... WHERE text_id = %s AND
checksum = %s`, bound to `(translated_data["id"], checksum)` — the raw
digest bytes. -/
def countMatching (st : DB) (idv : Option String) (digest : List Nat) : Nat :=
  (st.translations.filter (fun r => sqlEqOpt r.text_id idv && r.checksum == digest)).length

/-- Effect of `UPDATE HighTimes SET status = 'pending' WHERE id = %s`. -/
def updateStatus (rows : List (String × String)) (idv : Option String) :
    List (String × String) :=
  rows.map (fun p => if sqlEqOpt (some p.1) idv then (p.1, "pending") else p)

/-- The row written by the INSERT: note the sixth binding is `checksum.hex()`,
so the column receives the UTF-8 bytes of the lowercase hex string. -/
def newRow (b : Body) (digest : List Nat) : Row :=
  { text_id := b.idv, content := jsonDumps b.title b.text,
    providers_id := b.providers_id, lang_to := b.lang_to, lang_from := b.lang_from,
    checksum := strUtf8 (bytesToHex digest) }

/-! ### Responses -/

/-- A handler return value; absent dict keys are `none`. `errorField` is the
`"[ERROR]"` key of the irregular insert-failure return. `isBase64Encoded`
holds the Python string `"false"` where the code sets it. -/
structure Response where
  statusCode : Option Nat
  headers : Option (List (String × String))
  body : Option String
  isBase64Encoded : Option String
  errorField : Option String
deriving DecidableEq

/-- The fixed CORS header pair attached to every regular envelope. -/
def corsHeaders : List (String × String) :=
  [("Access-Control-Allow-Origin", "*"), ("Access-Control-Allow-Methods", "GET,OPTIONS")]

/-- The checksum-mismatch return: status 500, no `isBase64Encoded` key. -/
def mismatchResp : Response :=
  { statusCode := some 500, headers := some corsHeaders,
    body := some "Data corruption. Checksums are not the same.",
    isBase64Encoded := none, errorField := none }

/-- `HTDatabase.log_err`: status 400 envelope carrying the message. -/
def logErr (msg : String) : Response :=
  { statusCode := some 400, headers := some corsHeaders, body := some msg,
    isBase64Encoded := some "false", errorField := none }

/-- The idempotent-skip return. -/
def alreadyExistsResp : Response :=
  { statusCode := some 200, headers := some corsHeaders,
    body := some "Article translation already exists.",
    isBase64Encoded := some "false", errorField := none }

/-- The fresh-insert success return. -/
def successResp : Response :=
  { statusCode := some 200, headers := some corsHeaders,
    body := some "Data inserted successfully",
    isBase64Encoded := some "false", errorField := none }

/-- The irregular insert-failure return `{"[ERROR]": ...}`. -/
def insertErrResp (msg : String) : Response :=
  { statusCode := none, headers := none, body := none,
    isBase64Encoded := none, errorField := some msg }

/-- The message `f"{e} : {event.get('id')} : {translated_data.get('id')}"`. -/
def insertErrMsg (o : Oracle) (ev : Event) (b : Body) : String :=
  o.insertExcMsg ++ " : " ++ pyStr ev.idv ++ " : " ++ pyStr b.idv

/-- Exceptions that can escape `handler` (raised before its `try` block). -/
inductive PyExc where
  | keyError
  | jsonDecodeError
deriving DecidableEq

/-- Connection lifecycle outcome of one invocation. -/
inductive ConnState where
  | noConn
  | openC
  | closedC
deriving DecidableEq

/-! ### The handler -/

/-- The body of `handler`'s outer `try`, after `json.loads` succeeded:
checksum check, connection, duplicate SELECT, INSERT, status UPDATE, with
each failure handled exactly as in the source. Returns the response, the
resulting store, and whether a connection was opened. -/
def runParsed (ev : Event) (b : Body) (o : Oracle) (st : DB) : Response × DB × Bool :=
  if b.checksum ≠ some (bytesToHex (compute_checksum b.text b.idv)) then
    (mismatchResp, st, false)
  else if !o.connectOk then
    (logErr ("[ERROR]: Cannot connect to the database from the handler.\n" ++ o.connectTrace),
     st, false)
  else if !o.selectOk then
    (logErr ("[ERROR]: Cannot execute INSERT statement.\n" ++ o.selectTrace), st, true)
  else if countMatching st b.idv (compute_checksum b.text b.idv) > 0 then
    (alreadyExistsResp, st, true)
  else if !o.insertOk then
    (insertErrResp (insertErrMsg o ev b), st, true)
  else if !o.updateOk then
    (logErr ("[ERROR]: Cannot execute update statement.\n" ++ o.updateTrace),
     { st with translations := st.translations ++ [newRow b (compute_checksum b.text b.idv)] },
     true)
  else
    (successResp,
     { translations := st.translations ++ [newRow b (compute_checksum b.text b.idv)],
       highTimes := updateStatus st.highTimes b.idv },
     true)

/-- `handler(event, context)`. `body = json.loads(event["body"])` runs before
the `try`, so its failures escape as exceptions; afterwards every path goes
through the `finally`, which closes the connection if one was opened and
swallows the `NameError` when none was. -/
def handler (ev : Event) (o : Oracle) (st : DB) : Except PyExc (Response × DB × ConnState) :=
  match ev.rawBody with
  | RawBody.missing => Except.error PyExc.keyError
  | RawBody.invalid => Except.error PyExc.jsonDecodeError
  | RawBody.valid b =>
      let r := runParsed ev b o st
      Except.ok (r.1, r.2.1, if r.2.2 then ConnState.closedC else ConnState.noConn)

/-! ### Concrete inputs used by witnesses and counterexamples -/

/-- The lowercase hex digest for `id = "A1"`, `text = "hello"` (scenario 1). -/
def hexA1 : String := bytesToHex (compute_checksum (some "hello") (some "A1"))

/-- An oracle under which every external operation succeeds. -/
def okOracle : Oracle :=
  { connectOk := true, connectTrace := "", selectOk := true, selectTrace := "",
    insertOk := true, insertExcMsg := "", updateOk := true, updateTrace := "" }

/-- The scenario-1 request body. -/
def bodyA1 : Body :=
  { idv := some "A1", text := some "hello", title := none, checksum := some hexA1,
    providers_id := some "p1", lang_to := some "es", lang_from := some "en" }

/-- The scenario-1 event. -/
def eventA1 : Event := { rawBody := RawBody.valid bodyA1, idv := none }

/-- A store with no translations and one source record for `"A1"`. -/
def emptyDB : DB := { translations := [], highTimes := [("A1", "old")] }

/-- The store after the first scenario-1 submission. -/
def db1 : DB := (runParsed eventA1 bodyA1 okOracle emptyDB).2.1

/-- ASCII uppercasing, to build an alternative hex spelling of a digest. -/
def asciiUpper (s : String) : String :=
  String.mk (s.data.map (fun c => if c.isLower then Char.ofNat (c.toNat - 32) else c))

/-- Decoding of a hex string to bytes, accepting both letter cases — the
"decoded caller-supplied hex digest" of the claimed byte-for-byte
comparison. -/
def hexDigitVal (c : Char) : Option Nat :=
  if 48 ≤ c.toNat ∧ c.toNat ≤ 57 then some (c.toNat - 48)
  else if 97 ≤ c.toNat ∧ c.toNat ≤ 102 then some (c.toNat - 87)
  else if 65 ≤ c.toNat ∧ c.toNat ≤ 70 then some (c.toNat - 55)
  else none

/-- Decode a list of hex characters, two per byte. -/
def hexDecodeChars : List Char → Option (List Nat)
  | [] => some []
  | c1 :: c2 :: rest => do
      let hi ← hexDigitVal c1
      let lo ← hexDigitVal c2
      let r ← hexDecodeChars rest
      pure ((16 * hi + lo) :: r)
  | _ => none

/-- Decode a hex string to its byte list, `none` on malformed input. -/
def hexDecode (s : String) : Option (List Nat) := hexDecodeChars s.data

/-- The canonical string as the claim words it: field order id then text.
Follows the spec text, for comparison with `pyDictStr`, which the source
builds text-first. -/
def canonicalIdThenTextStr (idv text : Option String) : String :=
  "\x7b\x27id\x27: " ++ pyRepr idv ++ ", \x27text\x27: " ++ pyRepr text ++ "\x7d"

/-- The digest the claim describes: SHA-256 of the id-then-text canonical
string. -/
def specDigestIdThenText (idv text : Option String) : List Nat :=
  sha256Bytes (strUtf8 (canonicalIdThenTextStr idv text))

/-- Scenario-1 body with the checksum respelled in uppercase hex. -/
def bodyUpper : Body := { bodyA1 with checksum := some (asciiUpper hexA1) }

/-- Event carrying `bodyUpper`. -/
def eventUpper : Event := { rawBody := RawBody.valid bodyUpper, idv := none }

/-- Scenario-3 body: the wrong checksum `"deadbeef"`. -/
def bodyBad : Body := { bodyA1 with checksum := some "deadbeef" }

/-- Event carrying `bodyBad`. -/
def eventBad : Event := { rawBody := RawBody.valid bodyBad, idv := none }

/-- A body whose fields are all absent. -/
def bodyNone : Body :=
  { idv := none, text := none, title := none, checksum := none,
    providers_id := none, lang_to := none, lang_from := none }

/-- Event carrying `bodyNone`. -/
def eventNone : Event := { rawBody := RawBody.valid bodyNone, idv := none }

/-- Oracle whose connection attempt fails. -/
def badConnectOracle : Oracle := { okOracle with connectOk := false, connectTrace := "TRACE-CONN" }

/-- Oracle whose duplicate-detection SELECT fails. -/
def badSelectOracle : Oracle := { okOracle with selectOk := false, selectTrace := "TRACE-SEL" }

/-- Oracle whose INSERT fails. -/
def badInsertOracle : Oracle := { okOracle with insertOk := false, insertExcMsg := "boom" }

/-- Oracle whose status UPDATE fails. -/
def badUpdateOracle : Oracle := { okOracle with updateOk := false, updateTrace := "TRACE-UPD" }

/-- The regular response envelope shape: an integer status code among 200,
400, 500, a string body, the fixed CORS header pair, no stray `"[ERROR]"`
key, and `isBase64Encoded = "false"` except on the checksum-mismatch path,
where the key is absent. -/
def goodEnvelope (r : Response) : Prop :=
  (r.statusCode = some 200 ∨ r.statusCode = some 400 ∨ r.statusCode = some 500) ∧
  (∃ s, r.body = some s) ∧
  r.headers = some corsHeaders ∧
  (r.isBase64Encoded = some "false" ∨
    (r.isBase64Encoded = none ∧ r.statusCode = some 500)) ∧
  r.errorField = none

/-! ### Supporting lemmas: digest and stored-checksum lengths -/

/-- SHA-256 sanity check against the FIPS "abc" test vector. -/
theorem sha256_abc :
    bytesToHex (sha256Bytes (strUtf8 "abc")) =
      "ba7816bf8f01cfea414140de5dae2223b00361a396177a9cb410ff61f20015ad" := by
  set_option maxRecDepth 10000 in decide

theorem compress_length (hs bl : List Nat) : (compress hs bl).length = 8 := rfl

theorem foldl_compress_length :
    ∀ (bs : List (List Nat)) (hs : List Nat), hs.length = 8 →
      (bs.foldl compress hs).length = 8 := by
  intro bs
  induction bs with
  | nil => intro hs h; simpa using h
  | cons b rest ih => intro hs _; exact ih (compress hs b) (compress_length hs b)

theorem wordsToBytes_length : ∀ l : List Nat, (wordsToBytes l).length = 4 * l.length := by
  intro l
  induction l with
  | nil => rfl
  | cons w ws ih =>
      simp only [wordsToBytes, List.length_append, List.length_cons, ih, be32,
        List.length_nil]
      omega

/-- Every SHA-256 digest in this development has exactly 32 bytes. -/
theorem sha256Bytes_length (m : List Nat) : (sha256Bytes m).length = 32 := by
  unfold sha256Bytes
  rw [wordsToBytes_length, foldl_compress_length _ H0 (by rfl)]

theorem be32_lt (w : Nat) : ∀ x ∈ be32 w, x < 256 := by
  intro x hx
  simp only [be32, List.mem_cons, List.not_mem_nil, or_false] at hx
  rcases hx with h | h | h | h <;> subst h <;> exact Nat.mod_lt _ (by norm_num)

theorem wordsToBytes_lt : ∀ (l : List Nat), ∀ x ∈ wordsToBytes l, x < 256 := by
  intro l
  induction l with
  | nil => intro x hx; simp [wordsToBytes] at hx
  | cons w ws ih =>
      intro x hx
      simp only [wordsToBytes, List.mem_append] at hx
      rcases hx with h | h
      · exact be32_lt w x h
      · exact ih x h

theorem sha256Bytes_lt (m : List Nat) : ∀ x ∈ sha256Bytes m, x < 256 := by
  unfold sha256Bytes
  exact wordsToBytes_lt _

theorem utf8_hexDigit_length : ∀ n, n < 16 → (utf8Char (hexDigitChar n)).length = 1 := by decide

theorem utf8Bytes_hexChars_length :
    ∀ (d : List Nat), (∀ x ∈ d, x < 256) →
      (utf8Bytes (bytesToHexChars d)).length = 2 * d.length := by
  intro d
  induction d with
  | nil => intro _; rfl
  | cons b rest ih =>
      intro h
      have hb : b < 256 := h b (by simp)
      have h1 : b / 16 < 16 := Nat.div_lt_of_lt_mul (by omega)
      have h2 : b % 16 < 16 := Nat.mod_lt _ (by norm_num)
      have e1 := utf8_hexDigit_length _ h1
      have e2 := utf8_hexDigit_length _ h2
      have ih2 := ih (fun x hx => h x (by simp [hx]))
      have expand : utf8Bytes (bytesToHexChars (b :: rest)) =
          utf8Char (hexDigitChar (b / 16)) ++
            (utf8Char (hexDigitChar (b % 16)) ++ utf8Bytes (bytesToHexChars rest)) := by
        simp [bytesToHexChars, utf8Bytes, List.flatMap_cons]
      rw [expand]
      simp only [List.length_append, List.length_cons, e1, e2, ih2]
      omega

theorem strUtf8_mk (l : List Char) : strUtf8 (String.mk l) = utf8Bytes l := rfl

/-- UTF-8 length of the hex rendering of any SHA-256 digest: 64 bytes. -/
theorem strUtf8_hex_sha_length (m : List Nat) :
    (strUtf8 (bytesToHex (sha256Bytes m))).length = 64 := by
  rw [bytesToHex, strUtf8_mk, utf8Bytes_hexChars_length _ (sha256Bytes_lt m),
    sha256Bytes_length]

/-- The column value the INSERT stores (`checksum.hex()`, 64 bytes of hex
text) never equals the raw 32-byte digest that the duplicate-detection
SELECT binds. -/
theorem storedChecksum_ne_digest (text idv : Option String) :
    strUtf8 (bytesToHex (compute_checksum text idv)) ≠ compute_checksum text idv := by
  intro h
  have h1 : (strUtf8 (bytesToHex (compute_checksum text idv))).length = 64 :=
    strUtf8_hex_sha_length _
  have h2 : (compute_checksum text idv).length = 32 := sha256Bytes_length _
  rw [h, h2] at h1
  omega

/-- The handler's outcome is the checksum-mismatch response exactly when the
supplied `checksum` string differs from the lowercase hex of the recomputed
digest. -/
theorem mismatch_iff (ev : Event) (b : Body) (o : Oracle) (st : DB) :
    (runParsed ev b o st).1 = mismatchResp ↔
      b.checksum ≠ some (bytesToHex (compute_checksum b.text b.idv)) := by
  unfold runParsed
  split_ifs with h1 h2 h3 h4 h5 h6 <;>
    simp_all [mismatchResp, logErr, alreadyExistsResp, successResp, insertErrResp]

/-! ### Claim theorems -/

/-- C2: the claim that the upsert stores in the checksum column the exact
binary digest bound by the duplicate-detection query is FALSE in the code:
the INSERT binds `checksum.hex()` (64 bytes of hex text) while the SELECT
binds `checksum` (the raw 32-byte digest), so the stored value never equals
the compared value. -/
theorem C2_stored_checksum_differs_from_query_binding (b : Body) :
    (newRow b (compute_checksum b.text b.idv)).checksum ≠
      compute_checksum b.text b.idv := by
  have hproj : ∀ d : List Nat, (newRow b d).checksum = strUtf8 (bytesToHex d) :=
    fun d => rfl
  rw [hproj]
  exact storedChecksum_ne_digest b.text b.idv

/-- C4: when the caller-supplied checksum disagrees with the recomputed
digest, the handler returns the ChecksumMismatch response with status 500,
the store is unmodified, and no connection (hence no write) is attempted. -/
theorem C4_checksum_mismatch_is_atomic (ev : Event) (b : Body) (o : Oracle) (st : DB)
    (h : b.checksum ≠ some (bytesToHex (compute_checksum b.text b.idv))) :
    (runParsed ev b o st).1 = mismatchResp ∧
    mismatchResp.statusCode = some 500 ∧
    (runParsed ev b o st).2.1 = st ∧
    (runParsed ev b o st).2.2 = false := by
  unfold runParsed
  rw [if_pos h]
  exact ⟨rfl, rfl, rfl, rfl⟩

/-- Witness for C4 at the scenario-3 input (`checksum = "deadbeef"`). -/
theorem C4_witness :
    (runParsed eventBad bodyBad okOracle emptyDB).1 = mismatchResp ∧
    mismatchResp.statusCode = some 500 ∧
    (runParsed eventBad bodyBad okOracle emptyDB).2.1 = emptyDB ∧
    (runParsed eventBad bodyBad okOracle emptyDB).2.2 = false :=
  C4_checksum_mismatch_is_atomic eventBad bodyBad okOracle emptyDB
    (by set_option maxRecDepth 100000 in decide)

/-- C5: when the status UPDATE fails after a successful INSERT, the handler
returns the 400 UpdateFailure envelope whose body carries the failure trace,
the inserted translation row remains in the store, and the `HighTimes`
status table is unchanged. -/
theorem C5_update_failure_visibility (ev : Event) (b : Body) (o : Oracle) (st : DB)
    (hck : b.checksum = some (bytesToHex (compute_checksum b.text b.idv)))
    (hconn : o.connectOk = true) (hsel : o.selectOk = true)
    (hdup : countMatching st b.idv (compute_checksum b.text b.idv) = 0)
    (hins : o.insertOk = true) (hupd : o.updateOk = false) :
    (runParsed ev b o st).1 =
      logErr ("[ERROR]: Cannot execute update statement.\n" ++ o.updateTrace) ∧
    (runParsed ev b o st).1.statusCode = some 400 ∧
    (runParsed ev b o st).1.body =
      some ("[ERROR]: Cannot execute update statement.\n" ++ o.updateTrace) ∧
    (runParsed ev b o st).2.1.translations =
      st.translations ++ [newRow b (compute_checksum b.text b.idv)] ∧
    (runParsed ev b o st).2.1.highTimes = st.highTimes := by
  unfold runParsed
  rw [if_neg (by simp [hck]), if_neg (by simp [hconn]), if_neg (by simp [hsel]),
    if_neg (by simp [hdup]), if_neg (by simp [hins]), if_pos (by simp [hupd])]
  exact ⟨rfl, rfl, rfl, rfl, rfl⟩

/-- Witness for C5 at the scenario-1 input with a failing UPDATE. -/
theorem C5_witness :
    (runParsed eventA1 bodyA1 badUpdateOracle emptyDB).1 =
      logErr ("[ERROR]: Cannot execute update statement.\n" ++ badUpdateOracle.updateTrace) ∧
    (runParsed eventA1 bodyA1 badUpdateOracle emptyDB).1.statusCode = some 400 ∧
    (runParsed eventA1 bodyA1 badUpdateOracle emptyDB).1.body =
      some ("[ERROR]: Cannot execute update statement.\n" ++ badUpdateOracle.updateTrace) ∧
    (runParsed eventA1 bodyA1 badUpdateOracle emptyDB).2.1.translations =
      emptyDB.translations ++
        [newRow bodyA1 (compute_checksum bodyA1.text bodyA1.idv)] ∧
    (runParsed eventA1 bodyA1 badUpdateOracle emptyDB).2.1.highTimes = emptyDB.highTimes :=
  C5_update_failure_visibility eventA1 bodyA1 badUpdateOracle emptyDB rfl rfl rfl rfl rfl rfl

/-- C10: when the duplicate-detection SELECT itself fails (before any insert
is attempted), the handler reports the generic 400 envelope whose body says
"Cannot execute INSERT statement" plus the trace, and the store is
unmodified. -/
theorem C10_select_failure_conflated_with_insert_failure
    (ev : Event) (b : Body) (o : Oracle) (st : DB)
    (hck : b.checksum = some (bytesToHex (compute_checksum b.text b.idv)))
    (hconn : o.connectOk = true) (hsel : o.selectOk = false) :
    (runParsed ev b o st).1 =
      logErr ("[ERROR]: Cannot execute INSERT statement.\n" ++ o.selectTrace) ∧
    (runParsed ev b o st).1.statusCode = some 400 ∧
    (runParsed ev b o st).1.body =
      some ("[ERROR]: Cannot execute INSERT statement.\n" ++ o.selectTrace) ∧
    (runParsed ev b o st).2.1 = st := by
  unfold runParsed
  rw [if_neg (by simp [hck]), if_neg (by simp [hconn]), if_pos (by simp [hsel])]
  exact ⟨rfl, rfl, rfl, rfl⟩

/-- Witness for C10 at the scenario-1 input with a failing SELECT. -/
theorem C10_witness :
    (runParsed eventA1 bodyA1 badSelectOracle emptyDB).1 =
      logErr ("[ERROR]: Cannot execute INSERT statement.\n" ++ badSelectOracle.selectTrace) ∧
    (runParsed eventA1 bodyA1 badSelectOracle emptyDB).1.statusCode = some 400 ∧
    (runParsed eventA1 bodyA1 badSelectOracle emptyDB).1.body =
      some ("[ERROR]: Cannot execute INSERT statement.\n" ++ badSelectOracle.selectTrace) ∧
    (runParsed eventA1 bodyA1 badSelectOracle emptyDB).2.1 = emptyDB :=
  C10_select_failure_conflated_with_insert_failure eventA1 bodyA1 badSelectOracle emptyDB
    rfl rfl rfl

/-- C8: on every completed invocation the connection is never left open —
either none was opened (parse failure, checksum mismatch, connection
failure) or the `finally` block closed it. -/
theorem C8_connection_not_left_open
    (ev : Event) (o : Oracle) (st : DB) (r : Response) (st2 : DB) (c : ConnState)
    (h : handler ev o st = Except.ok (r, st2, c)) : c ≠ ConnState.openC := by
  intro hc
  subst hc
  obtain ⟨raw, evid⟩ := ev
  cases raw with
  | missing => simp [handler] at h
  | invalid => simp [handler] at h
  | valid b =>
      simp only [handler, Except.ok.injEq, Prod.mk.injEq] at h
      obtain ⟨-, -, h3⟩ := h
      split at h3 <;> exact ConnState.noConfusion h3

/-- Witness for C8: the checksum-mismatch path on the all-absent body never
opens a connection. -/
theorem C8_witness : ConnState.noConn ≠ ConnState.openC :=
  C8_connection_not_left_open eventNone okOracle emptyDB mismatchResp emptyDB
    ConnState.noConn rfl

/-- C6 counterexample: the claim says even a missing `body` key or invalid
JSON is converted to a response envelope, but `json.loads(event["body"])`
runs before the `try`, so both raise out of the handler. -/
theorem C6_counterexample :
    handler { rawBody := RawBody.missing, idv := none } okOracle emptyDB =
        Except.error PyExc.keyError ∧
    handler { rawBody := RawBody.invalid, idv := none } okOracle emptyDB =
        Except.error PyExc.jsonDecodeError :=
  ⟨rfl, rfl⟩

/-- C6 amended: once `event["body"]` is present and parses, every failure of
the store or credential provider is caught and converted to a response; no
exception escapes the handler. -/
theorem C6_amended_containment_after_parse (ev : Event) (b : Body) (o : Oracle) (st : DB)
    (h : ev.rawBody = RawBody.valid b) :
    handler ev o st =
      Except.ok ((runParsed ev b o st).1, (runParsed ev b o st).2.1,
        if (runParsed ev b o st).2.2 then ConnState.closedC else ConnState.noConn) := by
  unfold handler
  rw [h]

/-- Witness for the amended C6 at the scenario-1 event. -/
theorem C6_witness :
    handler eventA1 okOracle emptyDB =
      Except.ok ((runParsed eventA1 bodyA1 okOracle emptyDB).1,
        (runParsed eventA1 bodyA1 okOracle emptyDB).2.1,
        if (runParsed eventA1 bodyA1 okOracle emptyDB).2.2 then ConnState.closedC
        else ConnState.noConn) :=
  C6_amended_containment_after_parse eventA1 bodyA1 okOracle emptyDB rfl

/-- C3 counterexample: the recomputed digest is NOT the SHA-256 of the
id-then-text canonical string (the dict is rendered text first), and
verification is NOT a byte-for-byte comparison against the decoded caller
digest: the uppercase spelling of the correct digest decodes to exactly the
recomputed digest yet is rejected with the 500 mismatch response. -/
theorem C3_counterexample :
    compute_checksum (some "hello") (some "A1") ≠
      specDigestIdThenText (some "A1") (some "hello") ∧
    hexDecode (asciiUpper hexA1) = some (compute_checksum (some "hello") (some "A1")) ∧
    (runParsed eventUpper bodyUpper okOracle emptyDB).1 = mismatchResp ∧
    mismatchResp.statusCode = some 500 := by
  set_option maxRecDepth 100000 in decide

/-- C3 amended: the recomputed digest is SHA-256 of the Python `str()` of
the dict holding `text` then `id`; verification succeeds (the mismatch
response is avoided) iff the caller-supplied checksum string equals the
lowercase hex encoding of that digest; the scenario-1 input built that way
passes and yields the 200 success response on an empty store. -/
theorem C3_amended_checksum_verifier :
    (∀ text idv : Option String,
        compute_checksum text idv = sha256Bytes (strUtf8 (pyDictStr text idv))) ∧
    (∀ (ev : Event) (b : Body) (o : Oracle) (st : DB),
        (runParsed ev b o st).1 = mismatchResp ↔
          b.checksum ≠ some (bytesToHex (compute_checksum b.text b.idv))) ∧
    (runParsed eventA1 bodyA1 okOracle emptyDB).1 = successResp ∧
    successResp.statusCode = some 200 := by
  refine ⟨fun _ _ => rfl, mismatch_iff, ?_, rfl⟩
  set_option maxRecDepth 100000 in decide

/-- C9: verification is literal string equality between the `checksum`
field and the lowercase hex of the recomputed digest — the mismatch
response (status 500) is returned exactly when they differ as strings; in
particular the uppercase hex spelling of the correct digest, though it
decodes to the same bytes, is rejected. -/
theorem C9_strict_string_checksum_comparison :
    (∀ (ev : Event) (b : Body) (o : Oracle) (st : DB),
        (runParsed ev b o st).1 = mismatchResp ↔
          b.checksum ≠ some (bytesToHex (compute_checksum b.text b.idv))) ∧
    mismatchResp.statusCode = some 500 ∧
    asciiUpper hexA1 ≠ hexA1 ∧
    hexDecode (asciiUpper hexA1) = hexDecode hexA1 ∧
    (runParsed eventUpper bodyUpper okOracle emptyDB).1 = mismatchResp := by
  refine ⟨mismatch_iff, rfl, ?_, ?_, ?_⟩ <;> set_option maxRecDepth 100000 in decide

/-- C7 counterexample: the insert-failure path returns the irregular
`{"[ERROR]": ...}` object with no statusCode, headers, body or
`isBase64Encoded`; the checksum-mismatch response lacks `isBase64Encoded`;
and an unhandled exception inside the try block (a connection failure) is
reported with status 400, not 500. -/
theorem C7_counterexample :
    (runParsed eventA1 bodyA1 badInsertOracle emptyDB).1.statusCode = none ∧
    (runParsed eventA1 bodyA1 badInsertOracle emptyDB).1.headers = none ∧
    (runParsed eventA1 bodyA1 badInsertOracle emptyDB).1.body = none ∧
    (runParsed eventA1 bodyA1 badInsertOracle emptyDB).1.errorField =
      some "boom : None : A1" ∧
    mismatchResp.isBase64Encoded = none ∧
    (runParsed eventA1 bodyA1 badConnectOracle emptyDB).1.statusCode = some 400 := by
  set_option maxRecDepth 100000 in decide

/-- C7 amended: every completed invocation returns exactly one response;
on every terminal path except the insert-failure path it is a regular
envelope (integer statusCode in 200/400/500 — 500 only for checksum
mismatch, 400 for log-path errors including unhandled exceptions — string
body, the two CORS headers, and `isBase64Encoded = "false"` except on the
mismatch path, where the key is absent); the insert-failure path instead
returns the single-key `{"[ERROR]": ...}` object. -/
theorem C7_amended_response_shapes (ev : Event) (b : Body) (o : Oracle) (st : DB) :
    goodEnvelope (runParsed ev b o st).1 ∨
      (runParsed ev b o st).1 = insertErrResp (insertErrMsg o ev b) := by
  unfold runParsed
  split_ifs <;>
    simp [goodEnvelope, mismatchResp, logErr, alreadyExistsResp, successResp, insertErrResp]

/-- C1: idempotent ingestion is broken in the code. Submitting the
scenario-1 payload twice: the first call succeeds, but the second call also
returns the fresh-insert success response — never AlreadyExists — because
the duplicate SELECT binds the raw digest while the stored column holds its
hex text; afterwards the store holds two translation rows and zero rows
matching `(textId, binary checksum)`, not exactly one. -/
theorem C1_second_submission_not_detected_as_duplicate :
    (runParsed eventA1 bodyA1 okOracle emptyDB).1 = successResp ∧
    (runParsed eventA1 bodyA1 okOracle db1).1 = successResp ∧
    (runParsed eventA1 bodyA1 okOracle db1).1 ≠ alreadyExistsResp ∧
    countMatching db1 (some "A1") (compute_checksum (some "hello") (some "A1")) = 0 ∧
    db1.translations.length = 1 ∧
    (runParsed eventA1 bodyA1 okOracle db1).2.1.translations.length = 2 := by
  set_option maxRecDepth 100000 in decide

end Lambda
